import Mathlib

/-!
Verification of the chat-widget rule engine and conversation state manager.

The repository ships two near-identical skins of the same widget:
the "Nibbly" drone-delivery variant (`src/components/ChatBot.tsx`) and a
generic customer-support variant (an unnamed source file).  Both consist of

* a response resolver `getBotResponse : String → String`, and
* a conversation state manager built around `handleSendMessage`,
  a `setTimeout`-delayed bot reply, and a typing flag.

This file embeds both variants.  JavaScript string primitives
(`toLowerCase`, `toUpperCase`, `trim`, `includes`, the regex `/n\d{3}/i`,
`Date.now().toString()` ids, the `||` fallback on optional arguments) are
modelled explicitly on `List Char` / `Nat`.
-/

namespace ChatBot

/-! ### JavaScript string primitives -/

/-- ASCII case folding of `String.prototype.toLowerCase` for one character
(codepoints 65–90 are the letters `A`–`Z`). -/
def jsLowerChar (c : Char) : Char :=
  if 65 ≤ c.toNat ∧ c.toNat ≤ 90 then Char.ofNat (c.toNat + 32) else c

/-- ASCII case folding of `String.prototype.toUpperCase` for one character
(codepoints 97–122 are the letters `a`–`z`). -/
def jsUpperChar (c : Char) : Char :=
  if 97 ≤ c.toNat ∧ c.toNat ≤ 122 then Char.ofNat (c.toNat - 32) else c

/-- `userMessage.toLowerCase()`. -/
def jsLower (s : String) : String := String.mk (s.data.map jsLowerChar)

/-- `orderMatch[0].toUpperCase()`. -/
def jsUpper (s : String) : String := String.mk (s.data.map jsUpperChar)

/-- The whitespace characters trimmed by `String.prototype.trim`
(restricted to the common ASCII whitespace). -/
def isWsChar (c : Char) : Bool :=
  c = ' ' || c = '\t' || c = '\n' || c = '\r'

/-- `inputValue.trim()`. -/
def jsTrim (s : String) : String :=
  String.mk (((s.data.dropWhile isWsChar).reverse.dropWhile isWsChar).reverse)

/-- `message.includes(key)`: substring containment on character lists. -/
def containsSub (l sub : List Char) : Bool :=
  match l with
  | [] => sub.isEmpty
  | _ :: t => sub.isPrefixOf l || containsSub t sub

/-- `\d` in a JavaScript regex: the ASCII digits. -/
def isDigitChar (c : Char) : Bool := '0' ≤ c && c ≤ '9'

/-- The letter matched by `n` under the `/i` flag. -/
def isNChar (c : Char) : Bool := c = 'n' || c = 'N'

/-- Does the regex `/n\d{3}/i` match at the very start of `l`?
Returns the four matched characters. -/
def codeHere (l : List Char) : Option (List Char) :=
  match l with
  | c1 :: c2 :: c3 :: c4 :: _ =>
    if isNChar c1 && isDigitChar c2 && isDigitChar c3 && isDigitChar c4
    then some [c1, c2, c3, c4] else none
  | _ => none

/-- `message.match(/n\d{3}/i)`: leftmost match of "n" followed by exactly
three digits, scanning left to right. -/
def scanCode (l : List Char) : Option (List Char) :=
  match l with
  | [] => none
  | _ :: t =>
    match codeHere l with
    | some m => some m
    | none => scanCode t

/-! ### Nibbly variant: static data -/

/-- One record of the `droneLocations` table. -/
structure DroneData where
  lat : Int
  lng : Int
  address : String
  eta : Nat
  status : String
deriving DecidableEq

/-- `droneLocations` (coordinates are irrelevant to the replies; they are
kept as scaled integers only so the record mirrors the source fields). -/
def droneLocations : List (String × DroneData) :=
  [("N001", ⟨407505, -739934, "Near Washington Square Park", 4, "In Transit"⟩),
   ("N002", ⟨407614, -739776, "Above Union Square", 7, "In Transit"⟩),
   ("N003", ⟨407831, -739712, "Central Park South", 12, "Preparing for delivery"⟩)]

/-- `droneLocations[orderNum]`. -/
def lookupDrone (orderNum : String) : Option DroneData :=
  (droneLocations.find? (fun e => e.1 = orderNum)).map (·.2)

/-- `botResponses` of the Nibbly variant, as an ordered association list:
`Object.entries` iterates string keys in insertion order. -/
def nibblyResponses : List (String × String) :=
  [("track my order", "I'll help you track your Nibbly drone delivery! Please provide your order number (format: N001, N002, etc.) and I'll show you exactly where your drone is in Lower Manhattan."),
   ("wrong order", "Oh no! I'm sorry your order isn't correct. Please provide your order number and tell me what's wrong - we'll get this fixed right away and send out a replacement drone if needed."),
   ("I need help", "Hi! I'm here to help with your Nibbly drone delivery. I can track your drone's location, estimate delivery time, help with incorrect orders, or answer any questions about our service in Lower Manhattan!"),
   ("hello", "Hello! Welcome to Nibbly - Lower Manhattan's fastest drone delivery service! 🚁 How can I help you today?"),
   ("hi", "Hi there! Thanks for choosing Nibbly for your delivery needs. I can track your drone, help with order issues, or answer any questions!"),
   ("refund", "I understand you'd like a refund. For drone deliveries, we offer full refunds if there's an issue with your order. Please provide your order number and I'll process this for you."),
   ("cancel order", "I can help cancel your order if the drone hasn't taken off yet. Please provide your order number and I'll check if we can still cancel it."),
   ("delivery time", "Our drones typically deliver within 15 minutes anywhere in Lower Manhattan! Weather conditions may add a few extra minutes for safety."),
   ("location", "We serve all of Lower Manhattan from Battery Park to 14th Street. Our drones launch from our hub near the Brooklyn Bridge and can reach you super quickly!"),
   ("how it works", "Simple! Order through our app, our drone picks up your items from local partners, and flies directly to your location. You'll get real-time tracking the whole way!")]

/-- Head of the tracking-found template, before the interpolated order number. -/
def foundHead : String := "🚁 Found your order "

/-- The tracking-found reply template
(the backtick template literal of the source, as explicit concatenation). -/
def foundReply (orderNum : String) (d : DroneData) : String :=
  foundHead ++ (orderNum ++ "!\n\n📍 Current location: " ++ d.address ++
    "\n⏰ ETA: " ++ Nat.repr d.eta ++ " minutes\n📦 Status: " ++ d.status ++
    "\n\nYour drone is flying at 400ft altitude for safety. You'll get a notification when it's 1 minute away!")

/-- Head of the not-found template, before the interpolated order number. -/
def notFoundHead : String := "I couldn't find order "

/-- The tracking not-found reply template. -/
def notFoundReply (orderNum : String) : String :=
  notFoundHead ++ (orderNum ++ ". Please double-check your order number or contact us if you think this is an error.")

/-- The `if (droneData) ... else ...` body of the order-number branch. -/
def orderBranch (orderNum : String) : String :=
  match lookupDrone orderNum with
  | some d => foundReply orderNum d
  | none => notFoundReply orderNum

/-- Reply of the `drone && (where || location)` keyword check. -/
def droneWhereReply : String :=
  "To track your drone, please provide your order number (like N001). I'll show you exactly where it is and when it will arrive!"

/-- Reply of the `eta || when || arrive` keyword check. -/
def etaReply : String :=
  "Delivery times depend on your location in Lower Manhattan. Please share your order number and I'll give you the exact ETA!"

/-- Reply of the `thank` keyword check. -/
def thankReply : String :=
  "You're very welcome! Enjoy your Nibbly delivery! 🚁 Anything else I can help with?"

/-- Reply of the `bye || goodbye` keyword check. -/
def byeReply : String :=
  "Thanks for using Nibbly! Have a great day and don't hesitate to reach out if you need anything! 🚁"

/-- The default reply of the Nibbly variant. -/
def defaultReply : String :=
  "I'm here to help with your Nibbly drone delivery! I can track your order, help with issues, or answer questions. What can I assist you with?"

/-- The `for (const [key, response] of Object.entries(botResponses))` loop:
first entry whose trigger is a substring of the normalized input. -/
def findTableReply (tbl : List (String × String)) (message : String) : Option String :=
  match tbl with
  | [] => none
  | (k, r) :: rest =>
    if containsSub message.data k.data then some r else findTableReply rest message

/-- The keyword checks and default reply that follow the table loop
in the Nibbly variant. -/
def keywordBranch (message : String) : String :=
  if containsSub message.data "drone".data &&
     (containsSub message.data "where".data || containsSub message.data "location".data)
  then droneWhereReply
  else if containsSub message.data "eta".data || containsSub message.data "when".data ||
          containsSub message.data "arrive".data
  then etaReply
  else if containsSub message.data "thank".data then thankReply
  else if containsSub message.data "bye".data || containsSub message.data "goodbye".data
  then byeReply
  else defaultReply

/-- `getBotResponse` of the Nibbly variant. -/
def getBotResponse (userMessage : String) : String :=
  let message := jsLower userMessage
  match scanCode message.data with
  | some m => orderBranch (jsUpper (String.mk m))
  | none =>
    match findTableReply nibblyResponses message with
    | some r => r
    | none => keywordBranch message

/-! ### Generic customer-support variant -/

/-- `botResponses` of the generic variant, in insertion order. -/
def genericResponses : List (String × String) :=
  [("track my order", "I'd be happy to help you track your order! Please provide your order number (usually starts with #) and I'll look it up for you right away."),
   ("billing question", "I can help with billing inquiries. Are you looking to update payment information, view invoices, or resolve a billing issue? Please let me know more details."),
   ("I need help", "I'm here to help! I can assist with order tracking, billing questions, account issues, product information, returns, and more. What specific area can I help you with today?"),
   ("hello", "Hello! Welcome to our customer support. I'm here to help you with any questions or concerns. How can I assist you today?"),
   ("hi", "Hi there! Thanks for reaching out. I'm your customer service assistant. What can I help you with today?"),
   ("refund", "I understand you're looking for information about refunds. Our refund policy allows returns within 30 days of purchase. Could you please provide your order number so I can check the details for you?"),
   ("return", "I can help you with returns! Items can be returned within 30 days in original condition. Do you have your order number handy? This will help me process your return request faster."),
   ("cancel order", "I can help you cancel your order if it hasn't shipped yet. Please provide your order number and I'll check the status right away."),
   ("shipping", "I can provide shipping information! Are you asking about shipping costs, delivery times, or tracking an existing shipment? Please let me know your specific question."),
   ("account", "I can help with account-related questions. Are you having trouble logging in, need to update your information, or have other account concerns?"),
   ("password", "If you're having trouble with your password, I can guide you through resetting it. Please check your email for a password reset link, or let me know if you need me to send another one.")]

/-- Reply of the `order && status` keyword check of the generic variant. -/
def orderStatusReplyG : String :=
  "I can help you check your order status. Please provide your order number and I'll look it up immediately."

/-- Reply of the `cancel || cancelled` keyword check of the generic variant. -/
def cancelReplyG : String :=
  "I understand you want to cancel something. Could you specify if it's an order, subscription, or service? I'll help you with the cancellation process."

/-- Reply of the `thank` keyword check of the generic variant. -/
def thankReplyG : String :=
  "You're very welcome! I'm glad I could help. Is there anything else I can assist you with today?"

/-- Reply of the `bye || goodbye` keyword check of the generic variant. -/
def byeReplyG : String :=
  "Thank you for contacting us! Have a wonderful day and don't hesitate to reach out if you need any further assistance."

/-- The default reply of the generic variant. -/
def defaultReplyG : String :=
  "I understand your concern. Let me connect you with the right information. Could you provide more details about your specific issue? This will help me assist you better."

/-- The keyword checks and default reply following the table loop
in the generic variant. -/
def keywordBranchG (message : String) : String :=
  if containsSub message.data "order".data && containsSub message.data "status".data
  then orderStatusReplyG
  else if containsSub message.data "cancel".data || containsSub message.data "cancelled".data
  then cancelReplyG
  else if containsSub message.data "thank".data then thankReplyG
  else if containsSub message.data "bye".data || containsSub message.data "goodbye".data
  then byeReplyG
  else defaultReplyG

/-- `getBotResponse` of the generic variant. -/
def getBotResponseG (userMessage : String) : String :=
  let message := jsLower userMessage
  match findTableReply genericResponses message with
  | some r => r
  | none => keywordBranchG message

/-! ### Conversation state manager

Both variants share `handleSendMessage` verbatim (up to the resolver and
the quick-action query strings), so the state manager is embedded once,
parameterized by the resolver.  Time is the millisecond clock `Date.now()`,
passed to each event as a `Nat`. -/

/-- `sender: 'user' | 'bot'`. -/
inductive Sender where
  | user
  | bot
deriving DecidableEq

/-- The `Message` record: `id` is `Date.now().toString()` at creation
(`(Date.now() + 1).toString()` for bot replies), `timestamp` the clock. -/
structure Message where
  id : String
  text : String
  sender : Sender
  timestamp : Nat
deriving DecidableEq

/-- The component state: message list, controlled input value, typing flag,
and the queue of scheduled (not yet fired) `setTimeout` reply texts in
scheduling order. -/
structure ChatState where
  messages : List Message
  inputValue : String
  isTyping : Bool
  pending : List String
deriving DecidableEq

/-- Seeded initial state of the Nibbly variant. -/
def initNibblyState : ChatState :=
  { messages := [⟨"1", "Hi! I'm your Nibbly support assistant. I can help track your drone delivery, handle order issues, or answer questions about our service in Lower Manhattan! 🚁", Sender.bot, 0⟩],
    inputValue := "",
    isTyping := false,
    pending := [] }

/-- Seeded initial state of the generic variant. -/
def initGenericState : ChatState :=
  { messages := [⟨"1", "Hello! I'm your customer service assistant. I'm here to help with orders, billing, returns, and any other questions you might have. How can I assist you today?", Sender.bot, 0⟩],
    inputValue := "",
    isTyping := false,
    pending := [] }

/-- `const textToSend = messageText || inputValue.trim();` — JavaScript `||`
falls through on the empty string (and on a missing argument). -/
def textToSend (messageText : Option String) (inputValue : String) : String :=
  match messageText with
  | some t => if t = "" then jsTrim inputValue else t
  | none => jsTrim inputValue

/-- `handleSendMessage(messageText?)` at clock value `t`: guard against a
falsy `textToSend`, append the user message, clear the input buffer, raise
the typing flag, and schedule the delayed bot reply. -/
def handleSendMessage (messageText : Option String) (t : Nat) (st : ChatState) : ChatState :=
  let txt := textToSend messageText st.inputValue
  if txt = "" then st
  else
    { messages := st.messages ++ [⟨Nat.repr t, txt, Sender.user, t⟩],
      inputValue := "",
      isTyping := true,
      pending := st.pending ++ [txt] }

/-- The `setTimeout` callback firing at clock value `t`: append the bot
message produced by the resolver on the captured text and clear the typing
flag.  Fires the earliest outstanding timer. -/
def fireTimeout (resolve : String → String) (t : Nat) (st : ChatState) : ChatState :=
  match st.pending with
  | [] => st
  | txt :: rest =>
    { messages := st.messages ++ [⟨Nat.repr (t + 1), resolve txt, Sender.bot, t⟩],
      inputValue := st.inputValue,
      isTyping := false,
      pending := rest }

/-- Pressing Enter (without Shift) in the text input.  The input element is
rendered with `disabled={isTyping}`, so no key event reaches the handler
while the typing flag is set. -/
def enterKeyPressed (t : Nat) (st : ChatState) : ChatState :=
  if st.isTyping then st else handleSendMessage none t st

/-- Clicking the send button, which is rendered with
`disabled={!inputValue.trim() || isTyping}`. -/
def sendButtonClick (t : Nat) (st : ChatState) : ChatState :=
  if jsTrim st.inputValue = "" || st.isTyping then st
  else handleSendMessage none t st

/-- Quick-action query strings of the Nibbly variant, in render order. -/
def nibblyQueries : List String := ["track my order", "wrong order", "I need help"]

/-- Quick-action query strings of the generic variant, in render order. -/
def genericQueries : List String := ["track my order", "billing question", "I need help"]

/-- Clicking quick-action button `i`: `onClick={() => handleSendMessage(action.query)}`.
The quick-action buttons carry no `disabled` attribute, so the click goes
through regardless of the typing flag. -/
def quickActionClick (queries : List String) (i : Fin queries.length) (t : Nat)
    (st : ChatState) : ChatState :=
  handleSendMessage (some (queries.get i)) t st

/-- Typing into the controlled input (`onChange`); the element is disabled
while the typing flag is set. -/
def typeInput (s : String) (st : ChatState) : ChatState :=
  if st.isTyping then st else { st with inputValue := s }

/-- Reachable states of the widget: an interleaving of user events and timer
firings, each stamped with a non-decreasing clock value.  `t` is the clock
of the latest event. -/
inductive Reach (resolve : String → String) (init : ChatState) (queries : List String) :
    Nat → ChatState → Prop where
  | base : Reach resolve init queries 1 init
  | type (s : String) {t t' : Nat} {st : ChatState} (h : t ≤ t')
      (hr : Reach resolve init queries t st) :
      Reach resolve init queries t' (typeInput s st)
  | enter {t t' : Nat} {st : ChatState} (h : t ≤ t')
      (hr : Reach resolve init queries t st) :
      Reach resolve init queries t' (enterKeyPressed t' st)
  | click {t t' : Nat} {st : ChatState} (h : t ≤ t')
      (hr : Reach resolve init queries t st) :
      Reach resolve init queries t' (sendButtonClick t' st)
  | quick (q : String) (hq : q ∈ queries) {t t' : Nat} {st : ChatState} (h : t ≤ t')
      (hr : Reach resolve init queries t st) :
      Reach resolve init queries t' (handleSendMessage (some q) t' st)
  | fire {t t' : Nat} {st : ChatState} (h : t ≤ t')
      (hr : Reach resolve init queries t st) :
      Reach resolve init queries t' (fireTimeout resolve t' st)

/-- Reachable states when successive events are spaced at least two clock
ticks apart (no two events within the same or adjacent milliseconds). -/
inductive ReachSpaced (resolve : String → String) (init : ChatState) (queries : List String) :
    Nat → ChatState → Prop where
  | base : ReachSpaced resolve init queries 1 init
  | type (s : String) {t t' : Nat} {st : ChatState} (h : t + 2 ≤ t')
      (hr : ReachSpaced resolve init queries t st) :
      ReachSpaced resolve init queries t' (typeInput s st)
  | enter {t t' : Nat} {st : ChatState} (h : t + 2 ≤ t')
      (hr : ReachSpaced resolve init queries t st) :
      ReachSpaced resolve init queries t' (enterKeyPressed t' st)
  | click {t t' : Nat} {st : ChatState} (h : t + 2 ≤ t')
      (hr : ReachSpaced resolve init queries t st) :
      ReachSpaced resolve init queries t' (sendButtonClick t' st)
  | quick (q : String) (hq : q ∈ queries) {t t' : Nat} {st : ChatState} (h : t + 2 ≤ t')
      (hr : ReachSpaced resolve init queries t st) :
      ReachSpaced resolve init queries t' (handleSendMessage (some q) t' st)
  | fire {t t' : Nat} {st : ChatState} (h : t + 2 ≤ t')
      (hr : ReachSpaced resolve init queries t st) :
      ReachSpaced resolve init queries t' (fireTimeout resolve t' st)

/-- Decimal value of a digit character. -/
def decodeDigit (c : Char) : Nat := c.toNat - 48

/-- Decimal value of a character list, most significant digit first. -/
def valOfChars (l : List Char) : Nat :=
  l.foldl (fun a c => a * 10 + decodeDigit c) 0

/-- Every Nibbly reply that is not produced by the order-number branch:
the RuleTable replies, the keyword (compound-condition) replies, and the
default reply. -/
def nibblyOtherReplies : List String :=
  nibblyResponses.map Prod.snd ++
    [droneWhereReply, etaReply, thankReply, byeReply, defaultReply]

/-- The reply stored under the trigger `"I need help"` in the Nibbly table. -/
def nibblyHelpReplyVal : String := (nibblyResponses.get ⟨2, by decide⟩).2

/-- The reply stored under the trigger `"I need help"` in the generic table. -/
def genericHelpReplyVal : String := (genericResponses.get ⟨2, by decide⟩).2

/-- Well-formedness of the ids of a message list relative to the clock `t` of
the latest event: the ids are the decimal representations of a strictly
increasing sequence of numbers, all at most `t + 1`. -/
def IdsOk (t : Nat) (msgs : List Message) : Prop :=
  ∃ ns : List Nat, msgs.map Message.id = ns.map Nat.repr ∧
    ns.Pairwise (· < ·) ∧ ∀ n ∈ ns, n ≤ t + 1

/-! ### Helper lemmas: strings and decimal ids -/

theorem append_ne_of_take_ne (p x r : String) (h : r.data.take p.data.length ≠ p.data) :
    p ++ x ≠ r := fun he => h (by rw [← he, String.data_append, List.take_left])

theorem append_ne_empty (p x : String) (h : p.data ≠ []) : p ++ x ≠ "" := by
  intro he
  apply h
  have h2 := congrArg String.data he
  rw [String.data_append] at h2
  exact (List.append_eq_nil.mp h2).1

theorem toDigitsCore_append (fuel n : Nat) (acc : List Char) :
    Nat.toDigitsCore 10 fuel n acc = Nat.toDigitsCore 10 fuel n [] ++ acc := by
  induction fuel generalizing n acc with
  | zero => simp [Nat.toDigitsCore]
  | succ f ih =>
    simp only [Nat.toDigitsCore]
    by_cases h : n / 10 = 0
    · simp [h]
    · simp only [h, if_false]
      rw [ih (n / 10) [Nat.digitChar (n % 10)], ih (n / 10) (Nat.digitChar (n % 10) :: acc)]
      simp

theorem valOfChars_append (l : List Char) (c : Char) :
    valOfChars (l ++ [c]) = valOfChars l * 10 + decodeDigit c := by
  simp [valOfChars, List.foldl_append]

theorem decode_digitChar : ∀ m, m < 10 → decodeDigit (Nat.digitChar m) = m := by decide

theorem valOf_toDigitsCore (fuel n : Nat) (h : n < fuel) :
    valOfChars (Nat.toDigitsCore 10 fuel n []) = n := by
  induction fuel generalizing n with
  | zero => omega
  | succ f ih =>
    simp only [Nat.toDigitsCore]
    by_cases h0 : n / 10 = 0
    · have hn : n < 10 := by omega
      simp only [h0, if_true]
      show valOfChars [Nat.digitChar (n % 10)] = n
      rw [Nat.mod_eq_of_lt hn]
      show 0 * 10 + decodeDigit (Nat.digitChar n) = n
      rw [decode_digitChar n hn]
      omega
    · simp only [h0, if_false]
      rw [toDigitsCore_append, valOfChars_append]
      have hlt : n / 10 < f := by
        have h1 : n / 10 < n := Nat.div_lt_self (by omega) (by omega)
        omega
      rw [ih _ hlt, decode_digitChar _ (Nat.mod_lt _ (by omega))]
      omega

theorem valOf_repr (n : Nat) : valOfChars (Nat.repr n).data = n :=
  valOf_toDigitsCore (n + 1) n (Nat.lt_succ_self n)

theorem repr_injective : Function.Injective Nat.repr := by
  intro a b h
  have h2 := congrArg (fun s => valOfChars s.data) h
  simp only [valOf_repr] at h2
  exact h2

theorem jsLowerChar_ne_I (c : Char) : jsLowerChar c ≠ 'I' := by
  unfold jsLowerChar
  split
  · rename_i h
    have key : ∀ k, k < 123 → 97 ≤ k → Char.ofNat k ≠ 'I' := by decide
    exact key (c.toNat + 32) (by omega) (by omega)
  · rename_i h
    intro hc
    subst hc
    exact h (by decide)

theorem mem_jsLower_ne_I (s : String) (c : Char) (h : c ∈ (jsLower s).data) : c ≠ 'I' := by
  simp only [jsLower, List.mem_map] at h
  obtain ⟨a, _, rfl⟩ := h
  exact jsLowerChar_ne_I a

theorem containsSub_infix_iff (l sub : List Char) :
    containsSub l sub = true ↔ sub <:+: l := by
  induction l with
  | nil =>
    simp [containsSub, List.isEmpty_iff]
  | cons x t ih =>
    simp only [containsSub, Bool.or_eq_true, List.isPrefixOf_iff_prefix, ih]
    rw [List.infix_cons_iff]

theorem containsSub_subset (l sub : List Char) (h : containsSub l sub = true) :
    ∀ c ∈ sub, c ∈ l :=
  fun _ hc => ((containsSub_infix_iff l sub).mp h).subset hc

theorem not_containsSub_help (s : String) :
    containsSub (jsLower s).data ("I need help").data = false := by
  by_contra h
  have h2 : containsSub (jsLower s).data ("I need help").data = true := by
    revert h
    cases containsSub (jsLower s).data ("I need help").data <;> simp
  have h3 : 'I' ∈ (jsLower s).data := containsSub_subset _ _ h2 'I' (by decide)
  exact mem_jsLower_ne_I s 'I' h3 rfl

/-! ### Helper lemmas: rule table and order-code scan -/

theorem findTableReply_mem (tbl : List (String × String)) (m : String) (r : String)
    (h : findTableReply tbl m = some r) : r ∈ tbl.map Prod.snd := by
  induction tbl with
  | nil => simp [findTableReply] at h
  | cons e rest ih =>
    obtain ⟨k, v⟩ := e
    simp only [findTableReply] at h
    split at h
    · cases h; simp
    · simp [ih h]

theorem findTableReply_first (tbl : List (String × String)) (m : String) (i : Nat)
    (hi : i < tbl.length)
    (hmatch : containsSub m.data (tbl.get ⟨i, hi⟩).1.data = true)
    (hbefore : ∀ j (hj : j < i), containsSub m.data (tbl.get ⟨j, Nat.lt_trans hj hi⟩).1.data = false) :
    findTableReply tbl m = some (tbl.get ⟨i, hi⟩).2 := by
  induction tbl generalizing i with
  | nil => simp at hi
  | cons e rest ih =>
    obtain ⟨k, v⟩ := e
    cases i with
    | zero =>
      simp only [List.get] at hmatch ⊢
      simp [findTableReply, hmatch]
    | succ n =>
      have h0 : containsSub m.data k.data = false := hbefore 0 (Nat.succ_pos n)
      simp only [findTableReply, h0, List.get]
      exact ih n (Nat.lt_of_succ_lt_succ hi) hmatch
        (fun j hj => hbefore (j + 1) (Nat.succ_lt_succ hj))

theorem codeHere_some (l m : List Char) (h : codeHere l = some m) :
    ∃ c1 d1 d2 d3 b, l = c1 :: d1 :: d2 :: d3 :: b ∧ m = [c1, d1, d2, d3] ∧
      isNChar c1 = true ∧ isDigitChar d1 = true ∧ isDigitChar d2 = true ∧ isDigitChar d3 = true := by
  unfold codeHere at h
  split at h
  · rename_i c1 c2 c3 c4 rest
    split at h
    · rename_i hg
      cases h
      simp only [Bool.and_eq_true] at hg
      exact ⟨c1, c2, c3, c4, rest, rfl, rfl, hg.1.1.1, hg.1.1.2, hg.1.2, hg.2⟩
    · cases h
  · cases h

theorem scanCode_isSome_of_decomp (a : List Char) (c1 d1 d2 d3 : Char) (b : List Char)
    (h1 : isNChar c1 = true) (h2 : isDigitChar d1 = true) (h3 : isDigitChar d2 = true)
    (h4 : isDigitChar d3 = true) :
    (scanCode (a ++ c1 :: d1 :: d2 :: d3 :: b)).isSome = true := by
  induction a with
  | nil => simp [scanCode, codeHere, h1, h2, h3, h4]
  | cons x a' ih =>
    simp only [List.cons_append, scanCode]
    cases h : codeHere (x :: (a' ++ c1 :: d1 :: d2 :: d3 :: b)) <;> simp [h, ih]

theorem scanCode_isSome_iff (l : List Char) :
    (scanCode l).isSome = true ↔
      ∃ a c1 d1 d2 d3 b, l = a ++ c1 :: d1 :: d2 :: d3 :: b ∧
        isNChar c1 = true ∧ isDigitChar d1 = true ∧ isDigitChar d2 = true ∧
        isDigitChar d3 = true := by
  constructor
  · intro h
    induction l with
    | nil => simp [scanCode] at h
    | cons c t ih =>
      simp only [scanCode] at h
      cases hc : codeHere (c :: t) with
      | some m =>
        obtain ⟨c1, d1, d2, d3, b, hl, _, h1, h2, h3, h4⟩ := codeHere_some _ _ hc
        exact ⟨[], c1, d1, d2, d3, b, by simp [hl], h1, h2, h3, h4⟩
      | none =>
        rw [hc] at h
        obtain ⟨a, c1, d1, d2, d3, b, hl, h1, h2, h3, h4⟩ := ih h
        exact ⟨c :: a, c1, d1, d2, d3, b, by simp [hl], h1, h2, h3, h4⟩
  · rintro ⟨a, c1, d1, d2, d3, b, rfl, h1, h2, h3, h4⟩
    exact scanCode_isSome_of_decomp a c1 d1 d2 d3 b h1 h2 h3 h4

/-! ### Helper lemmas: resolver branch structure -/

theorem getBotResponse_order (s : String) (m : List Char)
    (h : scanCode (jsLower s).data = some m) :
    getBotResponse s = orderBranch (jsUpper (String.mk m)) := by
  simp only [getBotResponse, h]

theorem getBotResponse_table (s : String) (r : String)
    (hscan : scanCode (jsLower s).data = none)
    (htab : findTableReply nibblyResponses (jsLower s) = some r) :
    getBotResponse s = r := by
  simp only [getBotResponse, hscan, htab]

theorem getBotResponse_keyword (s : String)
    (hscan : scanCode (jsLower s).data = none)
    (htab : findTableReply nibblyResponses (jsLower s) = none) :
    getBotResponse s = keywordBranch (jsLower s) := by
  simp only [getBotResponse, hscan, htab]

theorem keywordBranch_mem (m : String) :
    keywordBranch m ∈ [droneWhereReply, etaReply, thankReply, byeReply, defaultReply] := by
  unfold keywordBranch
  split_ifs <;> simp

theorem keywordBranchG_mem (m : String) :
    keywordBranchG m ∈ [orderStatusReplyG, cancelReplyG, thankReplyG, byeReplyG, defaultReplyG] := by
  unfold keywordBranchG
  split_ifs <;> simp

theorem getBotResponseG_table (s : String) (r : String)
    (htab : findTableReply genericResponses (jsLower s) = some r) :
    getBotResponseG s = r := by
  simp only [getBotResponseG, htab]

theorem getBotResponseG_keyword (s : String)
    (htab : findTableReply genericResponses (jsLower s) = none) :
    getBotResponseG s = keywordBranchG (jsLower s) := by
  simp only [getBotResponseG, htab]

theorem orderBranch_cases (u : String) :
    (∃ d, lookupDrone u = some d ∧ orderBranch u = foundReply u d) ∨
      (lookupDrone u = none ∧ orderBranch u = notFoundReply u) := by
  unfold orderBranch
  cases h : lookupDrone u with
  | some d => exact Or.inl ⟨d, rfl, rfl⟩
  | none => exact Or.inr ⟨rfl, rfl⟩

theorem orderBranch_ne (r : String)
    (h1 : r.data.take foundHead.data.length ≠ foundHead.data)
    (h2 : r.data.take notFoundHead.data.length ≠ notFoundHead.data)
    (u : String) : orderBranch u ≠ r := by
  unfold orderBranch
  cases lookupDrone u with
  | some d => exact append_ne_of_take_ne _ _ _ h1
  | none => exact append_ne_of_take_ne _ _ _ h2

theorem getBotResponse_cases (s : String) :
    (∃ u, getBotResponse s = orderBranch u) ∨
      (∃ r, findTableReply nibblyResponses (jsLower s) = some r ∧ getBotResponse s = r) ∨
      getBotResponse s = keywordBranch (jsLower s) := by
  cases hscan : scanCode (jsLower s).data with
  | some m => exact Or.inl ⟨_, getBotResponse_order s m hscan⟩
  | none =>
    cases htab : findTableReply nibblyResponses (jsLower s) with
    | some r => exact Or.inr (Or.inl ⟨r, rfl, getBotResponse_table s r hscan htab⟩)
    | none => exact Or.inr (Or.inr (getBotResponse_keyword s hscan htab))

theorem getBotResponseG_cases (s : String) :
    (∃ r, findTableReply genericResponses (jsLower s) = some r ∧ getBotResponseG s = r) ∨
      getBotResponseG s = keywordBranchG (jsLower s) := by
  cases htab : findTableReply genericResponses (jsLower s) with
  | some r => exact Or.inl ⟨r, rfl, getBotResponseG_table s r htab⟩
  | none => exact Or.inr (getBotResponseG_keyword s htab)

theorem orderBranch_ne_all (u : String) :
    ∀ r ∈ nibblyOtherReplies, orderBranch u ≠ r := by
  intro r hr
  fin_cases hr <;> exact orderBranch_ne _ (by decide) (by decide) u

theorem getBotResponse_mem_other (s : String) (hscan : scanCode (jsLower s).data = none) :
    getBotResponse s ∈ nibblyOtherReplies := by
  unfold nibblyOtherReplies
  cases htab : findTableReply nibblyResponses (jsLower s) with
  | some r =>
    rw [getBotResponse_table s r hscan htab]
    exact List.mem_append_left _ (findTableReply_mem _ _ _ htab)
  | none =>
    rw [getBotResponse_keyword s hscan htab]
    exact List.mem_append_right _ (keywordBranch_mem _)

theorem other_ne_tracking :
    ∀ r ∈ nibblyOtherReplies,
      (∀ u d, r ≠ foundReply u d) ∧ ∀ u, r ≠ notFoundReply u := by
  intro r hr
  fin_cases hr <;>
    exact ⟨fun u d => Ne.symm (append_ne_of_take_ne foundHead _ _ (by decide)),
      fun u => Ne.symm (append_ne_of_take_ne notFoundHead _ _ (by decide))⟩

theorem findTableReply_ne (tbl : List (String × String)) (m : String) (r target : String)
    (h : findTableReply tbl m = some r)
    (hall : ∀ p ∈ tbl, containsSub m.data p.1.data = true → p.2 ≠ target) :
    r ≠ target := by
  induction tbl with
  | nil => simp [findTableReply] at h
  | cons e rest ih =>
    obtain ⟨k, v⟩ := e
    simp only [findTableReply] at h
    split at h
    · rename_i hc
      injection h with hv
      exact hv ▸ hall (k, v) (by simp) hc
    · exact ih h (fun p hp hc => hall p (by simp [hp]) hc)

theorem nibbly_table_ne_help (s : String) (r : String)
    (h : findTableReply nibblyResponses (jsLower s) = some r) :
    r ≠ nibblyHelpReplyVal := by
  have hI := not_containsSub_help s
  refine findTableReply_ne _ _ _ _ h ?_
  intro p hp hc
  fin_cases hp
  · decide
  · decide
  · rw [hI] at hc; simp at hc
  · decide
  · decide
  · decide
  · decide
  · decide
  · decide
  · decide

theorem generic_table_ne_help (s : String) (r : String)
    (h : findTableReply genericResponses (jsLower s) = some r) :
    r ≠ genericHelpReplyVal := by
  have hI := not_containsSub_help s
  refine findTableReply_ne _ _ _ _ h ?_
  intro p hp hc
  fin_cases hp
  · decide
  · decide
  · rw [hI] at hc; simp at hc
  · decide
  · decide
  · decide
  · decide
  · decide
  · decide
  · decide
  · decide

/-! ### Helper lemmas: state manager -/

theorem handleSendMessage_messages (mt : Option String) (t : Nat) (st : ChatState) :
    handleSendMessage mt t st = st ∨
    ∃ txt, handleSendMessage mt t st =
      { messages := st.messages ++ [⟨Nat.repr t, txt, Sender.user, t⟩],
        inputValue := "", isTyping := true, pending := st.pending ++ [txt] } := by
  by_cases h : textToSend mt st.inputValue = ""
  · left
    simp [handleSendMessage, h]
  · right
    exact ⟨textToSend mt st.inputValue, by simp [handleSendMessage, h]⟩

theorem fireTimeout_messages (resolve : String → String) (t : Nat) (st : ChatState) :
    fireTimeout resolve t st = st ∨
    ∃ txt rest, st.pending = txt :: rest ∧ fireTimeout resolve t st =
      { messages := st.messages ++ [⟨Nat.repr (t + 1), resolve txt, Sender.bot, t⟩],
        inputValue := st.inputValue, isTyping := false, pending := rest } := by
  cases h : st.pending with
  | nil => left; simp [fireTimeout, h]
  | cons txt rest => right; exact ⟨txt, rest, rfl, by simp [fireTimeout, h]⟩

theorem IdsOk.mono {t t' : Nat} {msgs : List Message} (h : t ≤ t') (hi : IdsOk t msgs) :
    IdsOk t' msgs := by
  obtain ⟨ns, h1, h2, h3⟩ := hi
  exact ⟨ns, h1, h2, fun n hn => le_trans (h3 n hn) (by omega)⟩

theorem IdsOk.snoc {t t' : Nat} {msgs : List Message} (hi : IdsOk t msgs) (m : Nat)
    (hm1 : t + 1 < m) (hm2 : m ≤ t' + 1) (txt : String) (sd : Sender) (ts : Nat) :
    IdsOk t' (msgs ++ [⟨Nat.repr m, txt, sd, ts⟩]) := by
  obtain ⟨ns, h1, h2, h3⟩ := hi
  refine ⟨ns ++ [m], by simp [h1], ?_, ?_⟩
  · rw [List.pairwise_append]
    refine ⟨h2, List.pairwise_singleton _ _, fun a ha b hb => ?_⟩
    simp at hb
    subst hb
    exact lt_of_le_of_lt (h3 a ha) hm1
  · intro n hn
    simp at hn
    rcases hn with hn | hn
    · exact le_trans (h3 n hn) (by omega)
    · omega

theorem idsOk_handleSend {t t' : Nat} {st : ChatState} (ih : IdsOk t st.messages)
    (hle : t + 2 ≤ t') (mt : Option String) :
    IdsOk t' (handleSendMessage mt t' st).messages := by
  rcases handleSendMessage_messages mt t' st with he | ⟨txt, he⟩
  · rw [he]
    exact ih.mono (by omega)
  · rw [he]
    exact ih.snoc t' (by omega) (by omega) txt _ _

theorem idsOk_fire {t t' : Nat} {st : ChatState} (ih : IdsOk t st.messages)
    (hle : t + 2 ≤ t') (resolve : String → String) :
    IdsOk t' (fireTimeout resolve t' st).messages := by
  rcases fireTimeout_messages resolve t' st with he | ⟨txt, rest, _, he⟩
  · rw [he]
    exact ih.mono (by omega)
  · rw [he]
    exact ih.snoc (t' + 1) (by omega) (by omega) _ _ _

theorem reachSpaced_idsOk {resolve : String → String} {init : ChatState}
    {queries : List String} {t : Nat} {st : ChatState}
    (hinit : init.messages.map Message.id = [Nat.repr 1])
    (h : ReachSpaced resolve init queries t st) : IdsOk t st.messages := by
  induction h with
  | base => exact ⟨[1], hinit, List.pairwise_singleton _ _, by simp⟩
  | type s hle hr ih =>
    unfold typeInput
    split
    · exact ih.mono (by omega)
    · exact ih.mono (by omega)
  | enter hle hr ih =>
    unfold enterKeyPressed
    split
    · exact ih.mono (by omega)
    · exact idsOk_handleSend ih hle none
  | click hle hr ih =>
    unfold sendButtonClick
    split
    · exact ih.mono (by omega)
    · exact idsOk_handleSend ih hle none
  | quick q hq hle hr ih => exact idsOk_handleSend ih hle (some q)
  | fire hle hr ih => exact idsOk_fire ih hle resolve

/-! ### Claim theorems -/

set_option maxRecDepth 4096 in
/-- Claim C1, counterexample: the claim that every submission path is blocked
while the typing flag is true is false.  From the reachable state obtained by
submitting "hi" (typing flag true), clicking the first quick-action button
changes the conversation and leaves two delayed replies outstanding, because
the quick-action buttons carry no `disabled={isTyping}` attribute. -/
theorem c1_typing_blocks_counterexample :
    (handleSendMessage (some "hi") 3 initNibblyState).isTyping = true ∧
    (quickActionClick nibblyQueries ⟨0, by decide⟩ 5
        (handleSendMessage (some "hi") 3 initNibblyState)).messages ≠
      (handleSendMessage (some "hi") 3 initNibblyState).messages ∧
    (quickActionClick nibblyQueries ⟨0, by decide⟩ 5
        (handleSendMessage (some "hi") 3 initNibblyState)).pending.length = 2 :=
  ⟨by decide, by decide, by decide⟩

/-- Claim C1, amended: while the typing flag is true, the text-input
submission paths (Enter key and send button) are no-ops, but the quick-action
shortcuts are not blocked: in both variants, clicking quick action `i` while
typing appends its query as a user message and schedules an additional
delayed reply, so more than one delayed reply can be outstanding. -/
theorem c1_typing_blocks_amended : ∀ (t : Nat) (st : ChatState), st.isTyping = true →
    enterKeyPressed t st = st ∧ sendButtonClick t st = st ∧
    (∀ i : Fin nibblyQueries.length,
      (quickActionClick nibblyQueries i t st).messages =
        st.messages ++ [⟨Nat.repr t, nibblyQueries.get i, Sender.user, t⟩] ∧
      (quickActionClick nibblyQueries i t st).pending =
        st.pending ++ [nibblyQueries.get i]) ∧
    (∀ i : Fin genericQueries.length,
      (quickActionClick genericQueries i t st).messages =
        st.messages ++ [⟨Nat.repr t, genericQueries.get i, Sender.user, t⟩] ∧
      (quickActionClick genericQueries i t st).pending =
        st.pending ++ [genericQueries.get i]) := by
  intro t st h
  refine ⟨by simp [enterKeyPressed, h], by simp [sendButtonClick, h], ?_, ?_⟩
  · intro i
    fin_cases i <;>
      simp [quickActionClick, handleSendMessage, textToSend, nibblyQueries]
  · intro i
    fin_cases i <;>
      simp [quickActionClick, handleSendMessage, textToSend, genericQueries]

set_option maxRecDepth 4096 in
/-- Claim C1, witness for the amended theorem, at the typing state reached by
submitting "hi" and at quick action 0 of each variant. -/
theorem c1_typing_blocks_amended_witness :
    enterKeyPressed 9 (handleSendMessage (some "hi") 3 initNibblyState) =
      handleSendMessage (some "hi") 3 initNibblyState ∧
    sendButtonClick 9 (handleSendMessage (some "hi") 3 initNibblyState) =
      handleSendMessage (some "hi") 3 initNibblyState ∧
    ((quickActionClick nibblyQueries ⟨0, by decide⟩ 9
        (handleSendMessage (some "hi") 3 initNibblyState)).messages =
      (handleSendMessage (some "hi") 3 initNibblyState).messages ++
        [⟨Nat.repr 9, nibblyQueries.get ⟨0, by decide⟩, Sender.user, 9⟩] ∧
     (quickActionClick nibblyQueries ⟨0, by decide⟩ 9
        (handleSendMessage (some "hi") 3 initNibblyState)).pending =
      (handleSendMessage (some "hi") 3 initNibblyState).pending ++
        [nibblyQueries.get ⟨0, by decide⟩]) ∧
    ((quickActionClick genericQueries ⟨0, by decide⟩ 9
        (handleSendMessage (some "hi") 3 initNibblyState)).messages =
      (handleSendMessage (some "hi") 3 initNibblyState).messages ++
        [⟨Nat.repr 9, genericQueries.get ⟨0, by decide⟩, Sender.user, 9⟩] ∧
     (quickActionClick genericQueries ⟨0, by decide⟩ 9
        (handleSendMessage (some "hi") 3 initNibblyState)).pending =
      (handleSendMessage (some "hi") 3 initNibblyState).pending ++
        [genericQueries.get ⟨0, by decide⟩]) := by
  have h := c1_typing_blocks_amended 9
    (handleSendMessage (some "hi") 3 initNibblyState) (by decide)
  exact ⟨h.1, h.2.1, h.2.2.1 ⟨0, by decide⟩, h.2.2.2 ⟨0, by decide⟩⟩

set_option maxRecDepth 4096 in
/-- Claim C2, counterexample: the claim that `submit(s)` is a no-op for every
empty-or-whitespace `s` is false.  `submit(" ")` appends a user message " "
and raises the typing flag, because a non-empty whitespace string is truthy
and bypasses the trimmed-buffer fallback; and `submit("")` with a non-blank
input buffer submits the buffer instead of being a no-op. -/
theorem c2_blank_submit_counterexample :
    (handleSendMessage (some " ") 3 initNibblyState).messages ≠
      initNibblyState.messages ∧
    (handleSendMessage (some " ") 3 initNibblyState).isTyping = true ∧
    (handleSendMessage (some "") 3
        { initNibblyState with inputValue := "hello" }).messages ≠
      { initNibblyState with inputValue := "hello" }.messages :=
  ⟨by decide, by decide, by decide⟩

/-- Claim C2, amended: when the pending-input buffer trims to the empty
string, submitting with an empty (or missing) argument is a complete no-op:
no message is appended, no reply is scheduled, and the conversation, typing
flag and buffer are unchanged.  (A whitespace-only non-empty argument is
truthy and is submitted verbatim, see the counterexample.) -/
theorem c2_blank_submit_amended : ∀ (st : ChatState) (t : Nat),
    jsTrim st.inputValue = "" →
    handleSendMessage (some "") t st = st ∧ handleSendMessage none t st = st := by
  intro st t h
  constructor <;> simp [handleSendMessage, textToSend, h]

/-- Claim C2, witness for the amended theorem at the initial state. -/
theorem c2_blank_submit_amended_witness :
    handleSendMessage (some "") 3 initNibblyState = initNibblyState ∧
    handleSendMessage none 3 initNibblyState = initNibblyState :=
  c2_blank_submit_amended initNibblyState 3 (by decide)

/-- Claim C3: in the Nibbly variant, whenever the order-code scan matches the
lowercased input, the resolver returns the tracking-found reply or the
not-found reply for the uppercased matched code, and never any RuleTable
reply, compound-condition reply, or the default reply. -/
theorem c3_order_code_priority (s : String) (m : List Char)
    (h : scanCode (jsLower s).data = some m) :
    ((∃ d, lookupDrone (jsUpper (String.mk m)) = some d ∧
        getBotResponse s = foundReply (jsUpper (String.mk m)) d) ∨
      (lookupDrone (jsUpper (String.mk m)) = none ∧
        getBotResponse s = notFoundReply (jsUpper (String.mk m)))) ∧
    ∀ r ∈ nibblyOtherReplies, getBotResponse s ≠ r := by
  have ho := getBotResponse_order s m h
  constructor
  · rcases orderBranch_cases (jsUpper (String.mk m)) with ⟨d, hd, he⟩ | ⟨hn, he⟩
    · exact Or.inl ⟨d, hd, ho.trans he⟩
    · exact Or.inr ⟨hn, ho.trans he⟩
  · intro r hr
    rw [ho]
    exact orderBranch_ne_all _ r hr

/-- Claim C3, witness at the spec's example input "please track N001 now". -/
theorem c3_order_code_priority_witness :
    ((∃ d, lookupDrone (jsUpper (String.mk ['n', '0', '0', '1'])) = some d ∧
        getBotResponse "please track N001 now" =
          foundReply (jsUpper (String.mk ['n', '0', '0', '1'])) d) ∨
      (lookupDrone (jsUpper (String.mk ['n', '0', '0', '1'])) = none ∧
        getBotResponse "please track N001 now" =
          notFoundReply (jsUpper (String.mk ['n', '0', '0', '1'])))) ∧
    ∀ r ∈ nibblyOtherReplies, getBotResponse "please track N001 now" ≠ r :=
  c3_order_code_priority "please track N001 now" ['n', '0', '0', '1'] (by decide)

/-- Claim C4: RuleTable matching is first-match-wins in insertion order, in
both variants: if entry `i` of the table matches the lowercased input, no
earlier entry matches, some other entry also matches (two or more triggers
present), and (Nibbly variant) no order code is found, the resolver returns
entry `i`'s reply. -/
theorem c4_table_first_match :
    (∀ (s : String) (i : Nat) (hi : i < nibblyResponses.length),
      scanCode (jsLower s).data = none →
      containsSub (jsLower s).data (nibblyResponses.get ⟨i, hi⟩).1.data = true →
      (∀ j (hj : j < i),
        containsSub (jsLower s).data
          (nibblyResponses.get ⟨j, Nat.lt_trans hj hi⟩).1.data = false) →
      (∃ j, ∃ hj : j < nibblyResponses.length, j ≠ i ∧
        containsSub (jsLower s).data (nibblyResponses.get ⟨j, hj⟩).1.data = true) →
      getBotResponse s = (nibblyResponses.get ⟨i, hi⟩).2) ∧
    (∀ (s : String) (i : Nat) (hi : i < genericResponses.length),
      containsSub (jsLower s).data (genericResponses.get ⟨i, hi⟩).1.data = true →
      (∀ j (hj : j < i),
        containsSub (jsLower s).data
          (genericResponses.get ⟨j, Nat.lt_trans hj hi⟩).1.data = false) →
      (∃ j, ∃ hj : j < genericResponses.length, j ≠ i ∧
        containsSub (jsLower s).data (genericResponses.get ⟨j, hj⟩).1.data = true) →
      getBotResponseG s = (genericResponses.get ⟨i, hi⟩).2) := by
  constructor
  · intro s i hi hscan hm hb _
    exact getBotResponse_table s _ hscan (findTableReply_first _ _ i hi hm hb)
  · intro s i hi hm hb _
    exact getBotResponseG_table s _ (findTableReply_first _ _ i hi hm hb)

/-- Claim C4, witness: "wrong order and hello" contains the triggers
"wrong order" (entry 1) and "hello" (entry 3) and gets entry 1's reply;
"cancel order password" contains "cancel order" (entry 7) and "password"
(entry 10) and gets entry 7's reply. -/
theorem c4_table_first_match_witness :
    getBotResponse "wrong order and hello" = (nibblyResponses.get ⟨1, by decide⟩).2 ∧
    getBotResponseG "cancel order password" = (genericResponses.get ⟨7, by decide⟩).2 :=
  ⟨c4_table_first_match.1 "wrong order and hello" 1 (by decide) (by decide) (by decide)
      (by decide) ⟨3, by decide, by decide, by decide⟩,
   c4_table_first_match.2 "cancel order password" 7 (by decide) (by decide) (by decide)
      ⟨10, by decide, by decide, by decide⟩⟩

/-- Claim C5: in the Nibbly variant, an input whose matched order code is
absent from the tracking table gets the distinct not-found reply naming that
code, which differs from the default fallback reply; the miss is handled on
the normal success path of the resolver. -/
theorem c5_unknown_code_not_found (s : String) (m : List Char)
    (h : scanCode (jsLower s).data = some m)
    (hnone : lookupDrone (jsUpper (String.mk m)) = none) :
    getBotResponse s = notFoundReply (jsUpper (String.mk m)) ∧
    notFoundReply (jsUpper (String.mk m)) ≠ defaultReply := by
  constructor
  · rw [getBotResponse_order s m h]
    unfold orderBranch
    rw [hnone]
  · exact append_ne_of_take_ne _ _ _ (by decide)

/-- Claim C5, witness at the spec's example input "status of N999". -/
theorem c5_unknown_code_not_found_witness :
    getBotResponse "status of N999" =
      notFoundReply (jsUpper (String.mk ['n', '9', '9', '9'])) ∧
    notFoundReply (jsUpper (String.mk ['n', '9', '9', '9'])) ≠ defaultReply :=
  c5_unknown_code_not_found "status of N999" ['n', '9', '9', '9'] (by decide) (by decide)

/-- Claim C6: the order-code scan succeeds on the lowercased input if and
only if it contains the letter `n` (case-insensitively) followed by exactly
three digits; the recognized code used by the resolver is the matched
substring uppercased; and when no such substring exists the resolver never
produces a tracking-found or not-found reply. -/
theorem c6_order_code_scan (s : String) :
    ((scanCode (jsLower s).data).isSome = true ↔
      ∃ a c1 d1 d2 d3 b, (jsLower s).data = a ++ c1 :: d1 :: d2 :: d3 :: b ∧
        isNChar c1 = true ∧ isDigitChar d1 = true ∧ isDigitChar d2 = true ∧
        isDigitChar d3 = true) ∧
    (∀ m, scanCode (jsLower s).data = some m →
      getBotResponse s = orderBranch (jsUpper (String.mk m))) ∧
    (scanCode (jsLower s).data = none →
      (∀ u d, getBotResponse s ≠ foundReply u d) ∧
        ∀ u, getBotResponse s ≠ notFoundReply u) := by
  refine ⟨scanCode_isSome_iff _, fun m hm => getBotResponse_order s m hm, fun hscan => ?_⟩
  exact other_ne_tracking _ (getBotResponse_mem_other s hscan)

/-- Claim C6, witness: "hello" contains no order code and its reply is
neither a tracking-found nor a not-found reply. -/
theorem c6_order_code_scan_witness :
    getBotResponse "hello" ≠
      foundReply "N001" ⟨407505, -739934, "Near Washington Square Park", 4, "In Transit"⟩ ∧
    getBotResponse "hello" ≠ notFoundReply "N999" :=
  ⟨((c6_order_code_scan "hello").2.2 (by decide)).1 "N001" _,
   ((c6_order_code_scan "hello").2.2 (by decide)).2 "N999"⟩

/-- Claim C7: submitting a non-empty `s` from the Idle state (typing flag
false, no pending reply) appends exactly one user message with text `s`
immediately; the delayed action then appends exactly one bot message whose
text is `resolve s`; and the typing flag is true strictly between the two
appends (raised at the first, cleared at the second). -/
theorem c7_submit_lifecycle : ∀ (resolve : String → String) (st : ChatState)
    (s : String) (t t' : Nat),
    s ≠ "" → st.isTyping = false → st.pending = [] →
    (handleSendMessage (some s) t st).messages =
      st.messages ++ [⟨Nat.repr t, s, Sender.user, t⟩] ∧
    (handleSendMessage (some s) t st).isTyping = true ∧
    (handleSendMessage (some s) t st).pending = [s] ∧
    (fireTimeout resolve t' (handleSendMessage (some s) t st)).messages =
      (handleSendMessage (some s) t st).messages ++
        [⟨Nat.repr (t' + 1), resolve s, Sender.bot, t'⟩] ∧
    (fireTimeout resolve t' (handleSendMessage (some s) t st)).isTyping = false ∧
    (fireTimeout resolve t' (handleSendMessage (some s) t st)).pending = [] := by
  intro resolve st s t t' hs _hty hp
  have h1 : handleSendMessage (some s) t st =
      { messages := st.messages ++ [⟨Nat.repr t, s, Sender.user, t⟩],
        inputValue := "", isTyping := true, pending := st.pending ++ [s] } := by
    simp [handleSendMessage, textToSend, hs]
  rw [h1, hp]
  refine ⟨rfl, rfl, rfl, ?_, rfl, rfl⟩
  simp [fireTimeout]

/-- Claim C7, witness: the spec's concrete scenario, submitting "hello" from
the Nibbly initial state and firing the delayed reply. -/
theorem c7_submit_lifecycle_witness :
    (handleSendMessage (some "hello") 3 initNibblyState).messages =
      initNibblyState.messages ++ [⟨Nat.repr 3, "hello", Sender.user, 3⟩] ∧
    (handleSendMessage (some "hello") 3 initNibblyState).isTyping = true ∧
    (handleSendMessage (some "hello") 3 initNibblyState).pending = ["hello"] ∧
    (fireTimeout getBotResponse 1600
        (handleSendMessage (some "hello") 3 initNibblyState)).messages =
      (handleSendMessage (some "hello") 3 initNibblyState).messages ++
        [⟨Nat.repr 1601, getBotResponse "hello", Sender.bot, 1600⟩] ∧
    (fireTimeout getBotResponse 1600
        (handleSendMessage (some "hello") 3 initNibblyState)).isTyping = false ∧
    (fireTimeout getBotResponse 1600
        (handleSendMessage (some "hello") 3 initNibblyState)).pending = [] :=
  c7_submit_lifecycle getBotResponse initNibblyState "hello" 3 1600
    (by decide) (by decide) (by decide)

set_option maxRecDepth 8192 in
/-- Claim C8, counterexample: message ids are not unique on every reachable
state.  Ids come from the millisecond clock, and quick actions are not
blocked while typing, so two quick-action submissions in the same
millisecond (here both at clock 5) produce two user messages with the same
id "5". -/
theorem c8_ids_counterexample :
    Reach getBotResponse initNibblyState nibblyQueries 5
      (handleSendMessage (some "track my order") 5
        (handleSendMessage (some "track my order") 5 initNibblyState)) ∧
    ¬ ((handleSendMessage (some "track my order") 5
        (handleSendMessage (some "track my order") 5 initNibblyState)).messages.map
          Message.id).Pairwise (· ≠ ·) := by
  constructor
  · exact Reach.quick "track my order" (by decide) (le_refl 5)
      (Reach.quick "track my order" (by decide) (by omega) Reach.base)
  · decide

/-- Claim C8, amended: if successive events are spaced at least two clock
ticks apart (so no two message creations share a millisecond and no creation
lands on a previous bot id, which is clock + 1), then on every reachable
state the message ids are pairwise distinct and are the decimal
representations of a strictly increasing sequence of numbers, i.e. strictly
monotonic by creation order. -/
theorem c8_ids_amended {resolve : String → String} {init : ChatState}
    {queries : List String} {t : Nat} {st : ChatState}
    (hinit : init.messages.map Message.id = [Nat.repr 1])
    (h : ReachSpaced resolve init queries t st) :
    (st.messages.map Message.id).Pairwise (· ≠ ·) ∧
    ∃ ns : List Nat, st.messages.map Message.id = ns.map Nat.repr ∧
      ns.Pairwise (· < ·) := by
  obtain ⟨ns, h1, h2, _⟩ := reachSpaced_idsOk hinit h
  refine ⟨?_, ns, h1, h2⟩
  rw [h1, List.pairwise_map]
  exact h2.imp (fun hab he => absurd (repr_injective he) (Nat.ne_of_lt hab))

set_option maxRecDepth 8192 in
/-- Claim C8, witness for the amended theorem: one spaced quick-action
submission from the Nibbly initial state. -/
theorem c8_ids_amended_witness :
    ((handleSendMessage (some "track my order") 4 initNibblyState).messages.map
      Message.id).Pairwise (· ≠ ·) ∧
    ∃ ns : List Nat,
      (handleSendMessage (some "track my order") 4 initNibblyState).messages.map
        Message.id = ns.map Nat.repr ∧ ns.Pairwise (· < ·) :=
  @c8_ids_amended getBotResponse initNibblyState nibblyQueries 4
    (handleSendMessage (some "track my order") 4 initNibblyState) (by decide)
    (ReachSpaced.quick "track my order" (by decide) (by omega) ReachSpaced.base)

/-- Claim C9: both resolvers are total (they always return a reply, and the
reply is non-empty, so a reply is really produced) and deterministic
(identical input yields identical output); as pure Lean functions of the
input string alone they read and write no state. -/
theorem c9_resolver_total_deterministic : ∀ s : String,
    (getBotResponse s ≠ "" ∧ getBotResponseG s ≠ "") ∧
    ∀ s', s = s' →
      getBotResponse s = getBotResponse s' ∧ getBotResponseG s = getBotResponseG s' := by
  intro s
  constructor
  · constructor
    · rcases getBotResponse_cases s with ⟨u, hu⟩ | ⟨r, hr, he⟩ | hk
      · rw [hu]
        exact orderBranch_ne "" (by decide) (by decide) u
      · rw [he]
        exact (by decide : ∀ x ∈ nibblyResponses.map Prod.snd, x ≠ "") _
          (findTableReply_mem _ _ _ hr)
      · rw [hk]
        exact (by decide :
          ∀ x ∈ [droneWhereReply, etaReply, thankReply, byeReply, defaultReply],
            x ≠ "") _ (keywordBranch_mem _)
    · rcases getBotResponseG_cases s with ⟨r, hr, he⟩ | hk
      · rw [he]
        exact (by decide : ∀ x ∈ genericResponses.map Prod.snd, x ≠ "") _
          (findTableReply_mem _ _ _ hr)
      · rw [hk]
        exact (by decide :
          ∀ x ∈ [orderStatusReplyG, cancelReplyG, thankReplyG, byeReplyG, defaultReplyG],
            x ≠ "") _ (keywordBranchG_mem _)
  · intro s' hss
    rw [hss]
    exact ⟨rfl, rfl⟩

/-- Claim C9, witness at the input "hello". -/
theorem c9_resolver_total_deterministic_witness :
    (getBotResponse "hello" ≠ "" ∧ getBotResponseG "hello" ≠ "") ∧
    getBotResponse "hello" = getBotResponse "hello" ∧
    getBotResponseG "hello" = getBotResponseG "hello" :=
  ⟨(c9_resolver_total_deterministic "hello").1,
   (c9_resolver_total_deterministic "hello").2 "hello" rfl⟩

/-- Claim C10: because the input is lowercased before the substring test but
table keys are compared verbatim, the trigger "I need help" (the one key
containing uppercase letters, in both variants) can never match: the
lowercased input never contains it, and no input ever receives the reply
stored under it — in particular the "Help" quick-action query "I need help"
does not. -/
theorem c10_uppercase_trigger_unreachable : ∀ s : String,
    containsSub (jsLower s).data ("I need help").data = false ∧
    getBotResponse s ≠ nibblyHelpReplyVal ∧
    getBotResponseG s ≠ genericHelpReplyVal := by
  intro s
  refine ⟨not_containsSub_help s, ?_, ?_⟩
  · rcases getBotResponse_cases s with ⟨u, hu⟩ | ⟨r, hr, he⟩ | hk
    · rw [hu]
      exact orderBranch_ne _ (by decide) (by decide) u
    · rw [he]
      exact nibbly_table_ne_help s r hr
    · rw [hk]
      exact (by decide :
        ∀ x ∈ [droneWhereReply, etaReply, thankReply, byeReply, defaultReply],
          x ≠ nibblyHelpReplyVal) _ (keywordBranch_mem _)
  · rcases getBotResponseG_cases s with ⟨r, hr, he⟩ | hk
    · rw [he]
      exact generic_table_ne_help s r hr
    · rw [hk]
      exact (by decide :
        ∀ x ∈ [orderStatusReplyG, cancelReplyG, thankReplyG, byeReplyG, defaultReplyG],
          x ≠ genericHelpReplyVal) _ (keywordBranchG_mem _)

end ChatBot
